import Mathlib

/-!
Verification of the background script of the DA_ads browser extension
(src/background.js).  The script has three parts:

* `getNextNoon` — computes the epoch timestamp of the next local noon;
* the `chrome.runtime.onInstalled` listener — registers the daily alarm
  via `setupDailyAlarm` and installs one dynamic header-rewrite rule via
  `chrome.declarativeNetRequest.updateDynamicRules`;
* the `chrome.alarms.onAlarm` listener — opens a dashboard tab when the
  alarm named "dailyCheck" fires.

Time is modelled as local wall-clock milliseconds since the local epoch
(a fixed timezone offset, so local midnight boundaries fall at multiples
of `msPerDay`).  Host-API effects (tab creation, alarm registration,
rule-set updates) are modelled as explicit data returned by the handlers.
-/

namespace DAads

/-- Milliseconds in one day; `next.setDate(next.getDate() + 1)` advances
the timestamp by exactly this amount in the fixed-offset model. -/
def msPerDay : Nat := 86400000

/-- Milliseconds from local midnight to local noon; `next.setHours(12, 0, 0, 0)`
sets the time-of-day to exactly this offset. -/
def msNoon : Nat := 43200000

/-- Local midnight of the day containing local time `t`. -/
def localMidnight (t : Nat) : Nat := t - t % msPerDay

/-- Local noon of the day containing local time `t`. -/
def todayNoon (t : Nat) : Nat := localMidnight t + msNoon

/-- Local noon of the day after the day containing local time `t`. -/
def tomorrowNoon (t : Nat) : Nat := localMidnight t + msPerDay + msNoon

/-- Embedding of `getNextNoon` with the two `new Date()` clock reads made
explicit: `nowRead` is the value of `const now = new Date()` and
`nextRead` the value of `const next = new Date()`; then
`next.setHours(12, 0, 0, 0)` truncates `nextRead` to its day and adds
noon, and if `next <= now` a day is added by `setDate(getDate() + 1)`. -/
def getNextNoonReads (nowRead nextRead : Nat) : Nat :=
  let next := nextRead - nextRead % msPerDay + msNoon
  if next ≤ nowRead then next + msPerDay else next

/-- Embedding of `getNextNoon` when both clock reads observe the same
instant `now` (the two `new Date()` calls run back to back). -/
def getNextNoon (now : Nat) : Nat := getNextNoonReads now now

/-- Descriptor passed to `chrome.alarms.create(name, {when, periodInMinutes})`. -/
structure AlarmDescriptor where
  name : String
  fireWhen : Nat
  periodInMinutes : Nat
deriving Repr, DecidableEq

/-- Embedding of `setupDailyAlarm`: registers the alarm named "dailyCheck"
firing first at `getNextNoon()` and repeating every 1440 minutes. -/
def setupDailyAlarm (now : Nat) : AlarmDescriptor :=
  { name := "dailyCheck", fireWhen := getNextNoon now, periodInMinutes := 1440 }

/-- One entry of a rule's `requestHeaders` action list. -/
structure HeaderMod where
  header : String
  operation : String
  value : String
deriving Repr, DecidableEq

/-- A declarativeNetRequest rule action. -/
structure RuleAction where
  type : String
  requestHeaders : List HeaderMod
deriving Repr, DecidableEq

/-- A declarativeNetRequest rule condition. -/
structure RuleCondition where
  urlFilter : String
  resourceTypes : List String
deriving Repr, DecidableEq

/-- A declarativeNetRequest dynamic rule. -/
structure Rule where
  id : Nat
  priority : Nat
  action : RuleAction
  condition : RuleCondition
deriving Repr, DecidableEq

/-- The fixed rule identifier `RULE_ID = 1` of the installer. -/
def RULE_ID : Nat := 1

/-- The fixed `MOBILE_USER_AGENT` string of the installer. -/
def MOBILE_USER_AGENT : String :=
  "Mozilla/5.0 (iPhone; CPU iPhone OS 16_0 like Mac OS X) AppleWebKit/605.1.15 (KHTML, like Gecko) Version/16.0 Mobile/15E148 Safari/604.1"

/-- The single rule literal passed in `addRules` by the installer. -/
def uaRule : Rule :=
  { id := RULE_ID
    priority := 1
    action :=
      { type := "modifyHeaders"
        requestHeaders :=
          [{ header := "User-Agent", operation := "set", value := MOBILE_USER_AGENT }] }
    condition :=
      { urlFilter := "m.search.naver.com"
        resourceTypes := ["xmlhttprequest", "sub_frame", "main_frame"] } }

/-- The `removeRuleIds` list passed by the installer: `[RULE_ID]`. -/
def installRemoveRuleIds : List Nat := [RULE_ID]

/-- The `addRules` list passed by the installer: the single `uaRule`. -/
def installAddRules : List Rule := [uaRule]

/-- Modelled from the spec: the host's
`chrome.declarativeNetRequest.updateDynamicRules({removeRuleIds, addRules})`
semantics, which is not code of this repository.  Per the spec it
"atomically replaces rules by integer identifier": every rule whose id is
in `removeRuleIds` is removed from the extension's dynamic rule set, then
the rules in `addRules` are added. -/
def updateDynamicRules (removeRuleIds : List Nat) (addRules : List Rule)
    (rules : List Rule) : List Rule :=
  rules.filter (fun r => ! removeRuleIds.contains r.id) ++ addRules

/-- Effect of one run of the `chrome.runtime.onInstalled` listener on the
extension's dynamic rule set: `updateDynamicRules` with `removeRuleIds
= [RULE_ID]` and `addRules = [uaRule]`. -/
def installRules (rules : List Rule) : List Rule :=
  updateDynamicRules installRemoveRuleIds installAddRules rules

/-- Boolean substring test on character lists. -/
def listContainsSub (needle : List Char) : List Char → Bool
  | [] => needle.isPrefixOf ([] : List Char)
  | c :: cs => needle.isPrefixOf (c :: cs) || listContainsSub needle cs

/-- Boolean test that `needle` occurs as a substring of `haystack`. -/
def strContains (haystack needle : String) : Bool :=
  listContainsSub needle.data haystack.data

/-- A network request as seen by the declarative rule engine: its URL and
its resource type. -/
structure Request where
  url : String
  resourceType : String
deriving Repr, DecidableEq

/-- Modelled from the spec: the host's rule-matching semantics, which is
not code of this repository.  Per the spec a rule's condition is a "URL
substring filter + set of resource types": a rule matches a request when
the request URL contains `urlFilter` as a substring and the request's
resource type is one of the rule's `resourceTypes`. -/
def ruleMatches (r : Rule) (req : Request) : Bool :=
  strContains req.url r.condition.urlFilter
    && r.condition.resourceTypes.contains req.resourceType

/-- An alarm object delivered to the `chrome.alarms.onAlarm` listener. -/
structure Alarm where
  name : String
deriving Repr, DecidableEq

/-- An observable host-API side effect of the alarm handler. -/
inductive Effect where
  | createTab (url : String)
deriving Repr, DecidableEq

/-- Embedding of the `chrome.alarms.onAlarm` listener: if the fired
alarm's name is exactly "dailyCheck" it calls
`chrome.tabs.create({url: 'dashboard.html?auto=true'})`, otherwise it
does nothing.  The returned list is the sequence of side effects. -/
def onAlarm (alarm : Alarm) : List Effect :=
  if alarm.name = "dailyCheck" then [Effect.createTab "dashboard.html?auto=true"] else []

/-- Alarm registrations performed by one run of the
`chrome.runtime.onInstalled` listener: a single `chrome.alarms.create`
call, made by `setupDailyAlarm`. -/
def installAlarms (now : Nat) : List AlarmDescriptor := [setupDailyAlarm now]

/-! ## Theorems -/

/-- Claim C1: for every current local wall-clock time strictly before
today's local noon, `getNextNoon` returns the timestamp of today's local
noon. -/
theorem getNextNoon_before_noon (now : Nat) (h : now % msPerDay < msNoon) :
    getNextNoon now = todayNoon now := by
  simp only [getNextNoon, getNextNoonReads, todayNoon, localMidnight, msPerDay, msNoon] at *
  split <;> omega

/-- Witness for C1 at 09:00 local time (32400000 ms after local midnight). -/
theorem getNextNoon_before_noon_witness :
    32400000 % msPerDay < msNoon ∧ getNextNoon 32400000 = todayNoon 32400000 :=
  ⟨by decide, getNextNoon_before_noon 32400000 (by decide)⟩

/-- Claim C2: for every current local wall-clock time at or after today's
local noon (including exactly 12:00:00.000), `getNextNoon` returns the
timestamp of tomorrow's local noon. -/
theorem getNextNoon_after_noon (now : Nat) (h : msNoon ≤ now % msPerDay) :
    getNextNoon now = tomorrowNoon now := by
  simp only [getNextNoon, getNextNoonReads, tomorrowNoon, localMidnight, msPerDay, msNoon] at *
  split <;> omega

/-- Witness for C2 at 13:00 local time (46800000 ms after local midnight). -/
theorem getNextNoon_after_noon_witness :
    msNoon ≤ 46800000 % msPerDay ∧ getNextNoon 46800000 = tomorrowNoon 46800000 :=
  ⟨by decide, getNextNoon_after_noon 46800000 (by decide)⟩

/-- Claim C8: for every current wall-clock time, `getNextNoon` returns a
timestamp strictly greater than the current time, at most 24 hours in the
future, whose local time-of-day is exactly 12:00:00.000 (noon). -/
theorem getNextNoon_bounds (now : Nat) :
    now < getNextNoon now ∧ getNextNoon now ≤ now + msPerDay ∧
      getNextNoon now % msPerDay = msNoon := by
  simp only [getNextNoon, getNextNoonReads, msPerDay, msNoon]
  refine ⟨?_, ?_, ?_⟩ <;> split <;> omega

/-- Claim C9: `getNextNoon` is deterministic in the current wall-clock
time: two evaluations at the same instant return identical timestamps. -/
theorem getNextNoon_deterministic (t1 t2 : Nat) (h : t1 = t2) :
    getNextNoon t1 = getNextNoon t2 := by rw [h]

/-- Witness for C9 at 13:00 local time on the local epoch day. -/
theorem getNextNoon_deterministic_witness :
    (46800000 : Nat) = 46800000 ∧ getNextNoon 46800000 = getNextNoon 46800000 :=
  ⟨rfl, getNextNoon_deterministic 46800000 46800000 rfl⟩

/-- Claim C6: on every install/update event, exactly one alarm is
registered; its name is "dailyCheck", its first-fire time is
`getNextNoon()`, and its repeat period is 1440 minutes. -/
theorem installAlarms_spec (now : Nat) :
    (installAlarms now).length = 1 ∧
      installAlarms now = [setupDailyAlarm now] ∧
      (setupDailyAlarm now).name = "dailyCheck" ∧
      (setupDailyAlarm now).fireWhen = getNextNoon now ∧
      (setupDailyAlarm now).periodInMinutes = 1440 :=
  ⟨rfl, rfl, rfl, rfl, rfl⟩

/-- Claim C4: the alarm handler creates a tab if and only if the fired
alarm's name is exactly "dailyCheck"; for any other name it performs no
side effect at all. -/
theorem onAlarm_iff_dailyCheck (a : Alarm) :
    ((∃ url, Effect.createTab url ∈ onAlarm a) ↔ a.name = "dailyCheck") ∧
      (a.name = "dailyCheck" ∨ onAlarm a = []) := by
  unfold onAlarm
  split <;> simp_all

/-- Claim C5: every tab the alarm handler opens has URL exactly
"dashboard.html?auto=true", which contains the literal query parameter
auto=true; a firing named "dailyCheck" opens exactly one tab. -/
theorem onAlarm_url (a : Alarm) :
    (∀ u, Effect.createTab u ∈ onAlarm a →
        u = "dashboard.html?auto=true" ∧ strContains u "auto=true" = true) ∧
      (a.name = "dailyCheck" → (onAlarm a).length = 1) := by
  unfold onAlarm
  split <;> simp_all
  decide

/-- Rules surviving the removal phase of the installer never carry the
fixed identifier. -/
theorem filter_keep_no_ruleId (l : List Rule) :
    (l.filter (fun r => ! installRemoveRuleIds.contains r.id)).filter
      (fun r => r.id == RULE_ID) = [] := by
  induction l with
  | nil => rfl
  | cons a l ih =>
    by_cases h : a.id = RULE_ID <;>
      simp_all [installRemoveRuleIds, RULE_ID, List.filter_cons]

/-- Claim C3: after every run of the installer exactly one rule with the
fixed identifier `RULE_ID` is in the dynamic rule set, whatever the prior
set was; in particular running the installer twice still leaves exactly
one such rule. -/
theorem installRules_unique_id (rules : List Rule) :
    ((installRules rules).filter (fun r => r.id == RULE_ID)).length = 1 ∧
      ((installRules (installRules rules)).filter
        (fun r => r.id == RULE_ID)).length = 1 := by
  have key : ∀ l : List Rule,
      ((installRules l).filter (fun r => r.id == RULE_ID)).length = 1 := by
    intro l
    rw [installRules, updateDynamicRules, List.filter_append, filter_keep_no_ruleId]
    rfl
  exact ⟨key rules, key (installRules rules)⟩

/-- Claim C10: the installer's dynamic-rule update touches only the rule
with identifier 1: its removal list is exactly [1], every rule it adds
has id 1, and the rules with any other identifier are left exactly as
they were. -/
theorem installRules_frame (rules : List Rule) :
    installRemoveRuleIds = [1] ∧
      (∀ r ∈ installAddRules, r.id = 1) ∧
      (installRules rules).filter (fun r => ! (r.id == RULE_ID)) =
        rules.filter (fun r => ! (r.id == RULE_ID)) := by
  refine ⟨rfl, by decide, ?_⟩
  rw [installRules, updateDynamicRules, List.filter_append]
  have h2 : installAddRules.filter (fun r => ! (r.id == RULE_ID)) = [] := by rfl
  rw [h2, List.append_nil]
  induction rules with
  | nil => rfl
  | cons a t ih =>
    by_cases h : a.id = RULE_ID <;>
      simp_all [installRemoveRuleIds, RULE_ID, List.filter_cons]

/-- Claim C7: the installed rule matches exactly those requests whose URL
contains the fixed domain substring "m.search.naver.com" and whose
resource type is one of xmlhttprequest, sub_frame, main_frame; its action
sets the User-Agent request header to the fixed mobile string. -/
theorem uaRule_matches_iff (req : Request) :
    (ruleMatches uaRule req = true ↔
        (strContains req.url "m.search.naver.com" = true ∧
          req.resourceType ∈ ["xmlhttprequest", "sub_frame", "main_frame"])) ∧
      uaRule.action.type = "modifyHeaders" ∧
      uaRule.action.requestHeaders =
        [{ header := "User-Agent", operation := "set", value := MOBILE_USER_AGENT }] := by
  refine ⟨?_, rfl, rfl⟩
  simp [ruleMatches, uaRule, List.contains]

/-- Witness for C5: the "dailyCheck" firing, whose single created tab has
the dashboard URL containing auto=true. -/
theorem onAlarm_url_witness :
    (Effect.createTab "dashboard.html?auto=true" ∈ onAlarm ⟨"dailyCheck"⟩) ∧
      ("dashboard.html?auto=true" = "dashboard.html?auto=true" ∧
        strContains "dashboard.html?auto=true" "auto=true" = true) ∧
      (onAlarm ⟨"dailyCheck"⟩).length = 1 :=
  ⟨by simp [onAlarm],
    (onAlarm_url ⟨"dailyCheck"⟩).1 "dashboard.html?auto=true" (by simp [onAlarm]),
    (onAlarm_url ⟨"dailyCheck"⟩).2 rfl⟩

end DAads
